import Mathlib

/-!
# gomiler: `main.go`

A shallow embedding of `checkAPI`, `validateBaseURLScheme` and `main` of
`src/main.go`, and the properties of the orchestration that follow from it.

* Go's `error` is a message (`Err`); a `(value, error)` result is a pair whose
  second component is `none` for `nil`.
* The HTTP client, `net/url`, the rune table of `unicode.ToLower` and the
  packages `utils`, `gitlab` and `github` are not part of `main.go`: they are
  parameters (`Env`).  Operations that touch the remote tracker thread an
  abstract world state `σ`.
* `for k, v := range m` over the two-entry map of `checkAPI` visits both
  entries in an unspecified order: the order is a parameter (`MapOrder`).
* A run of `main` is its sequence of observable events (logger lines and
  calls into `utils`/`gitlab`/`github`, with what they returned), how it
  exited, and the final world.
-/

namespace Gomiler

/-- Message of a Go `error` value. -/
abbrev Err := String

/-! ## checkAPI -/

/-- What one pass through the loop body of `checkAPI` gets from the network:
`http.NewRequest` failed, `client.Do` failed, or a response with a status
code arrived. -/
inductive ProbeResult where
  | requestError (e : Err)
  | transportError (e : Err)
  | status (code : Int)
  deriving DecidableEq, Repr

/-- The two orders in which `range` may visit the two-entry map. -/
inductive MapOrder where
  | gitlabFirst
  | githubFirst
  deriving DecidableEq, Repr

/-- The map literal `m` of `checkAPI` (lines 42-47), as its list of entries. -/
def probeMap (baseURL nameSpace project : String) : List (String × String) :=
  [("gitlab", baseURL ++ "/api/v4/version"),
   ("github", baseURL ++ "/repos/" ++ nameSpace ++ "/" ++ project)]

/-- The entries of a map in the order `range` visits them. -/
def rangeMap (o : MapOrder) (m : List (String × String)) : List (String × String) :=
  match o with
  | .gitlabFirst => m
  | .githubFirst => m.reverse

/-- How the `for` loop of `checkAPI` ends: by one of its `return`s, or by
running out of entries with `resp` holding the last response (its status
code; `none` is the nil pointer `resp` starts as). -/
inductive LoopExit where
  | returned (api : String) (err : Option Err)
  | fellThrough (resp : Option Int)
  deriving DecidableEq, Repr

/-- The `for k, v := range m` loop of `checkAPI` (lines 50-73).  `doReq k v
token` is building and sending the request for entry `(k, v)`; the headers
depend on `k` and `token` only. -/
def checkAPILoop (doReq : String → String → String → ProbeResult) (token : String) :
    List (String × String) → Option Int → LoopExit
  | [], resp => .fellThrough resp
  | (k, v) :: rest, _ =>
    match doReq k v token with
    | .requestError e => .returned "" (some e)
    | .transportError e => .returned "" (some e)
    | .status code =>
      if code = 200 then .returned k none
      else if code = 403 then .returned "" (some "Provided token is invalid. Access Denied.")
      else checkAPILoop doReq token rest (some code)

/-- Embedding of `checkAPI` (lines 41-80).  After the loop `resp` is the response of
the entry visited last; the map is never empty, so `resp` is not nil there. -/
def checkAPI (doReq : String → String → String → ProbeResult) (o : MapOrder)
    (baseURL token nameSpace project : String) : String × Option Err :=
  match checkAPILoop doReq token (rangeMap o (probeMap baseURL nameSpace project)) none with
  | .returned api err => (api, err)
  | .fellThrough resp =>
    if resp = some 404 then ("", some ("project " ++ project ++ " not found"))
    else ("", some "Error: could not access GitLab or GitHub APIs")

/-- The status codes answered by the two probes of `checkAPI`: entry `gitlab`
answers `g` and entry `github` answers `h`. -/
def Answers (doReq : String → String → String → ProbeResult)
    (baseURL token nameSpace project : String) (g h : Int) : Prop :=
  doReq "gitlab" (baseURL ++ "/api/v4/version") token = .status g ∧
  doReq "github" (baseURL ++ "/repos/" ++ nameSpace ++ "/" ++ project) token = .status h

instance (doReq : String → String → String → ProbeResult)
    (baseURL token nameSpace project : String) (g h : Int) :
    Decidable (Answers doReq baseURL token nameSpace project g h) := by
  unfold Answers
  infer_instance

/-- A server that answers `g` to the GitLab probe and `h` to every other one. -/
def fixedServer (g h : Int) : String → String → String → ProbeResult :=
  fun k _ _ => if k = "gitlab" then .status g else .status h

/-- The status the probe tried first answers, and the one tried second. -/
def firstStatus (o : MapOrder) (g h : Int) : Int :=
  match o with
  | .gitlabFirst => g
  | .githubFirst => h

/-- The status answered by the probe tried second. -/
def secondStatus (o : MapOrder) (g h : Int) : Int :=
  match o with
  | .gitlabFirst => h
  | .githubFirst => g

/-- The flavour (map key) of the probe tried first. -/
def firstKey (o : MapOrder) : String :=
  match o with
  | .gitlabFirst => "gitlab"
  | .githubFirst => "github"

/-- The flavour (map key) of the probe tried second. -/
def secondKey (o : MapOrder) : String :=
  match o with
  | .gitlabFirst => "github"
  | .githubFirst => "gitlab"

/-! ## strings.ToLower -/

/-- Go's `unicode.ToLower`: ASCII runes are handled inline (`'A'..'Z'` move by
`'a' - 'A'`), every other rune goes through the case tables of the standard
library, here the parameter `table`. -/
def unicodeToLower (table : Char → Char) (r : Char) : Char :=
  if r.toNat ≤ 0x7F then
    if 'A'.toNat ≤ r.toNat ∧ r.toNat ≤ 'Z'.toNat then Char.ofNat (r.toNat + ('a'.toNat - 'A'.toNat))
    else r
  else table r

/-- Go's `strings.ToLower`: `unicode.ToLower` mapped over the runes of the
string (a string is its sequence of runes here). -/
def ToLower (table : Char → Char) (s : String) : String :=
  ⟨s.data.map (unicodeToLower table)⟩

/-- An upper-case ASCII letter `c` and its lower-case form `d`, by code point:
`c` is one of `'A'..'Z'` (65..90) and `d` is the rune 32 above it. -/
def AsciiCasePair (c d : Char) : Prop :=
  65 ≤ c.toNat ∧ c.toNat ≤ 90 ∧ d.toNat = c.toNat + 32

instance (c d : Char) : Decidable (AsciiCasePair c d) := by
  unfold AsciiCasePair
  infer_instance

/-- Two runes that differ at most in letter case: they are equal, or they are
the upper-case and the lower-case form of one ASCII letter.  The letter case
of runes outside ASCII is a matter of the Unicode tables of the Go library,
which are not part of the program, so such runes have to agree. -/
def CaseVariant (c d : Char) : Prop :=
  c = d ∨ AsciiCasePair c d ∨ AsciiCasePair d c

instance (c d : Char) : Decidable (CaseVariant c d) := by
  unfold CaseVariant
  infer_instance

/-- Two strings that differ only in letter case: the same number of runes, and
at every position two runes that differ at most in letter case. -/
def DifferOnlyInCase (s t : String) : Prop :=
  s.data.length = t.data.length ∧ ∀ p ∈ s.data.zip t.data, CaseVariant p.1 p.2

instance (s t : String) : Decidable (DifferOnlyInCase s t) := by
  unfold DifferOnlyInCase
  infer_instance

/-! ## The environment of `main` -/

/-- The parts of a parsed `url.URL` that `validateBaseURLScheme` touches, and
the rest of it. -/
structure URL where
  Scheme : String
  RawQuery : String
  Rest : String
  deriving DecidableEq, Repr

/-- The three operations `main` calls in package `gitlab`, and the three it
calls in package `github`; each may read and change the remote tracker `σ`.
`D` is the type of the milestone data (`utils.CreateMilestoneData`'s first
result), `C` the type of the closed-milestone list. -/
structure Tracker (σ D C : Type) where
  CreateAndDisplayNewMilestones : String → String → String → D → σ → Option Err × σ
  GetClosedMilestones : String → String → String → D → σ → (C × Option Err) × σ
  ReactivateClosedMilestones : C → String → String → String → σ → Option Err × σ

/-- Everything `main.go` calls that is not defined in it. -/
structure Env (σ D C : Type) where
  /-- Go's `url.Parse` -/
  urlParse : String → Except Err URL
  /-- Go's `u.Query().Encode()`, as a function of the raw query -/
  queryEncode : String → String
  /-- Go's `u.String()` -/
  urlString : URL → String
  /-- sending the probe for one entry of the map of `checkAPI` -/
  doReq : String → String → String → ProbeResult
  /-- the order in which `range` visits that map in this run -/
  mapOrder : MapOrder
  /-- the case tables behind `unicode.ToLower` -/
  lowerTable : Char → Char
  /-- Call `utils.CreateMilestoneData(advance, interval, logger, api)` -/
  CreateMilestoneData : Int → String → String → σ → (D × Option Err) × σ
  /-- Call `gitlab.GetProjectID(baseURL, token, project, namespace)` -/
  GetProjectID : String → String → String → String → σ → (String × Option Err) × σ
  gitlab : Tracker σ D C
  github : Tracker σ D C

/-- The flags of the command line, after `flag.Parse()`. -/
structure Args where
  token : String
  interval : String
  baseURL : String
  nameSpace : String
  project : String
  advance : Int
  deriving DecidableEq, Repr

/-- Observable steps of a run of `main`: lines written by `main` through the
logger, and its calls into `utils`, `gitlab` and `github` with their arguments
(the logger apart) and what they returned. -/
inductive Event (D C : Type) where
  | Println (msg : Err)
  | Fatal (msg : Err)
  | CreateMilestoneData (advance : Int) (interval api : String) (data : D) (err : Option Err)
  | GetProjectID (baseURL token project nameSpace : String) (projectID : String)
      (err : Option Err)
  | CreateAndDisplayNewMilestones (api baseURL token project : String) (data : D)
      (err : Option Err)
  | GetClosedMilestones (api baseURL token project : String) (data : D) (closed : C)
      (err : Option Err)
  | ReactivateClosedMilestones (api : String) (closed : C) (baseURL token project : String)
      (err : Option Err)
  deriving DecidableEq, Repr

/-- How the process ends: `main` returns, or `logger.Fatal` calls `os.Exit(1)`. -/
inductive Exit where
  | returned
  | exit1
  deriving DecidableEq, Repr

/-- A finished run of `main`. -/
structure Run (σ D C : Type) where
  trace : List (Event D C)
  exit : Exit
  world : σ

/-- The statement `if err != nil { logger.Println(err) }`. -/
def logErr {D C : Type} : Option Err → List (Event D C)
  | some e => [.Println e]
  | none => []

/-- Embedding of `validateBaseURLScheme` (lines 82-91). -/
def validateBaseURLScheme {σ D C : Type} (env : Env σ D C) (baseURL : String) :
    String × Option Err :=
  match env.urlParse baseURL with
  | .error e => ("", some e)
  | .ok u =>
    let u := { u with Scheme := "https" }
    let u := { u with RawQuery := env.queryEncode u.RawQuery }
    (env.urlString u, none)

/-- The three tracker calls that end both branches of the `switch` of `main`
(lines 136-147 for GitLab, 154-165 for GitHub; `project` is the project id for
GitLab and the project name for GitHub). -/
def applyMilestones {σ D C : Type} (t : Tracker σ D C) (api newBaseURL token project : String)
    (milestoneData : D) (w : σ) : List (Event D C) × σ :=
  let r1 := t.CreateAndDisplayNewMilestones newBaseURL token project milestoneData w
  let r2 := t.GetClosedMilestones newBaseURL token project milestoneData r1.2
  let closedMilestones := r2.1.1
  let r3 := t.ReactivateClosedMilestones closedMilestones newBaseURL token project r2.2
  ([.CreateAndDisplayNewMilestones api newBaseURL token project milestoneData r1.1] ++
     logErr r1.1 ++
     [.GetClosedMilestones api newBaseURL token project milestoneData closedMilestones r2.1.2] ++
     logErr r2.1.2 ++
     [.ReactivateClosedMilestones api closedMilestones newBaseURL token project r3.1] ++
     logErr r3.1,
   r3.2)

/-- Embedding of `main` (lines 93-167), from the parsed flags on. -/
def main {σ D C : Type} (env : Env σ D C) (a : Args) (w : σ) : Run σ D C :=
  let v := validateBaseURLScheme env a.baseURL
  let URL := v.1
  let t0 : List (Event D C) := logErr v.2
  let c := checkAPI env.doReq env.mapOrder URL a.token a.nameSpace a.project
  let api := c.1
  match c.2 with
  | some e => ⟨t0 ++ [.Fatal e], .exit1, w⟩
  | none =>
    let interval := ToLower env.lowerTable a.interval
    if api = "gitlab" then
      let m := env.CreateMilestoneData a.advance interval api w
      let milestoneData := m.1.1
      let t1 := t0 ++ [.CreateMilestoneData a.advance interval api milestoneData m.1.2]
      match m.1.2 with
      | some e => ⟨t1 ++ [.Fatal e], .exit1, m.2⟩
      | none =>
        let newBaseURL := URL ++ "/api/v4"
        let p := env.GetProjectID newBaseURL a.token a.project a.nameSpace m.2
        let projectID := p.1.1
        let t2 := t1 ++ [.GetProjectID newBaseURL a.token a.project a.nameSpace projectID p.1.2]
        match p.1.2 with
        | some e => ⟨t2 ++ [.Fatal e], .exit1, p.2⟩
        | none =>
          let r := applyMilestones env.gitlab api newBaseURL a.token projectID milestoneData p.2
          ⟨t2 ++ r.1, .returned, r.2⟩
    else if api = "github" then
      let m := env.CreateMilestoneData a.advance interval api w
      let milestoneData := m.1.1
      let t1 := t0 ++ [.CreateMilestoneData a.advance interval api milestoneData m.1.2]
      match m.1.2 with
      | some e => ⟨t1 ++ [.Fatal e], .exit1, m.2⟩
      | none =>
        let newBaseURL := URL ++ "/repos/" ++ a.nameSpace ++ "/"
        let r := applyMilestones env.github api newBaseURL a.token a.project milestoneData m.2
        ⟨t1 ++ r.1, .returned, r.2⟩
    else ⟨t0, .returned, w⟩

/-- The calls that create, list or reactivate milestones on the tracker. -/
def Event.isGatewayCall {D C : Type} : Event D C → Bool
  | .CreateAndDisplayNewMilestones .. => true
  | .GetClosedMilestones .. => true
  | .ReactivateClosedMilestones .. => true
  | _ => false

/-- A call of `ReactivateClosedMilestones`. -/
def Event.isReactivation {D C : Type} : Event D C → Bool
  | .ReactivateClosedMilestones .. => true
  | _ => false

/-- A call of `CreateAndDisplayNewMilestones`. -/
def Event.isCreation {D C : Type} : Event D C → Bool
  | .CreateAndDisplayNewMilestones .. => true
  | _ => false

/-- A call of `GetClosedMilestones`. -/
def Event.isListing {D C : Type} : Event D C → Bool
  | .GetClosedMilestones .. => true
  | _ => false

/-! ## The reconciler of the specification -/

/-- Modelled from the spec: the state of a remote milestone (§3); the type
`utils.MilestoneAPI` is not part of `main.go`. -/
inductive MilestoneState where
  | opened
  | closed
  deriving DecidableEq, Repr

/-- Modelled from the spec: `MilestoneDescriptor` (§3), the unit of desired
state; the type `utils.Milestone` is not part of `main.go`. -/
structure MilestoneDescriptor where
  title : String
  startDate : String
  dueDate : String
  deriving DecidableEq, Repr

/-- Modelled from the spec: `RemoteMilestone` (§3), the tracker's view of a
milestone; the type `utils.MilestoneAPI` is not part of `main.go`. -/
structure RemoteMilestone where
  id : Nat
  title : String
  state : MilestoneState
  dueDate : String
  deriving DecidableEq, Repr

/-- Modelled from the spec: `ReconciliationResult` (§3); the reconciler lives
in the packages `gitlab` and `github`, which are not part of `main.go`. -/
structure ReconciliationResult where
  toCreate : List MilestoneDescriptor
  toReactivate : List RemoteMilestone
  deriving DecidableEq, Repr

/-- Modelled from the spec: the look-up of §4.2, "look up remote milestones by
exact title match" (the remote milestone found first, when several carry the
title); the code of the look-up is in the missing packages. -/
def lookupRemote (remote : List RemoteMilestone) (title : String) : Option RemoteMilestone :=
  remote.find? (fun m => m.title = title)

/-- Modelled from the spec: a desired descriptor whose title has no match on
the remote (§4.2, "No match"); the missing packages hold the code. -/
def needsCreate (remote : List RemoteMilestone) (d : MilestoneDescriptor) : Bool :=
  (lookupRemote remote d.title).isNone

/-- Modelled from the spec: a desired descriptor whose title matches an open
remote milestone (§4.2, "already satisfied"); the missing packages hold the
code. -/
def isSatisfied (remote : List RemoteMilestone) (d : MilestoneDescriptor) : Bool :=
  match lookupRemote remote d.title with
  | some m => m.state = .opened
  | none => false

/-- Modelled from the spec: the closed remote milestone a desired descriptor
matches, if any (§4.2, "Match found, state = closed", carrying the remote id
and the original due date); the missing packages hold the code. -/
def closedMatch (remote : List RemoteMilestone) (d : MilestoneDescriptor) :
    Option RemoteMilestone :=
  match lookupRemote remote d.title with
  | some m => if m.state = .closed then some m else none
  | none => none

/-- Modelled from the spec: `reconcile` of §4.2, a pure function of the
desired and the remote sequence that fails with `InvariantViolation` on
duplicate desired titles; the functions of the packages `gitlab` and `github`
that `main` calls are missing from the sources. -/
def reconcile (desired : List MilestoneDescriptor) (remote : List RemoteMilestone) :
    Except Err ReconciliationResult :=
  if (desired.map (fun d => d.title)).Nodup then
    .ok { toCreate := desired.filter (needsCreate remote),
          toReactivate := desired.filterMap (closedMatch remote) }
  else .error "InvariantViolation"

/-- Modelled from the spec: the desired titles that are already satisfied
(§4.2: matched by an open remote milestone, no action); the missing packages
hold the code. -/
def satisfied (desired : List MilestoneDescriptor) (remote : List RemoteMilestone) :
    List MilestoneDescriptor :=
  desired.filter (isSatisfied remote)

/-- Modelled from the spec: a tracker gateway (§4.3) over a remote that is a
list of milestones.  Creation reconciles and creates `toCreate` as open
milestones, the closed listing reconciles and returns `toReactivate`, and
reactivation reopens the listed ids; the packages `gitlab` and `github` are
missing from the sources. -/
def specTracker : Tracker (List RemoteMilestone) (List MilestoneDescriptor)
    (List RemoteMilestone) where
  CreateAndDisplayNewMilestones := fun _ _ _ data w =>
    match reconcile data w with
    | .error e => (some e, w)
    | .ok r => (none, w ++ r.toCreate.map (fun d => ⟨0, d.title, .opened, d.dueDate⟩))
  GetClosedMilestones := fun _ _ _ data w =>
    match reconcile data w with
    | .error e => (([], some e), w)
    | .ok r => ((r.toReactivate, none), w)
  ReactivateClosedMilestones := fun closed _ _ _ w =>
    (none, w.map (fun m =>
      if m.id ∈ closed.map (fun c => c.id) then { m with state := .opened } else m))

/-- A tracker whose listing of the closed milestones always fails, and is
otherwise `specTracker`. -/
def failingListTracker : Tracker (List RemoteMilestone) (List MilestoneDescriptor)
    (List RemoteMilestone) :=
  { specTracker with
    GetClosedMilestones := fun _ _ _ _ w => (([], some "cannot list milestones"), w) }

/-- A tracker whose creation call always fails, and is otherwise `specTracker`. -/
def failingCreateTracker : Tracker (List RemoteMilestone) (List MilestoneDescriptor)
    (List RemoteMilestone) :=
  { specTracker with
    CreateAndDisplayNewMilestones := fun _ _ _ _ w => (some "cannot create milestone", w) }

/-- A concrete environment: a server answering `g` to the GitLab probe and `h`
to the GitHub probe, tried in the order `o`; ASCII-only lower-casing; a
bucketer that returns `desired` for the three intervals and fails for every
other; project id `42`; both flavours served by `t`. -/
def demoEnv (g h : Int) (o : MapOrder) (desired : List MilestoneDescriptor)
    (t : Tracker (List RemoteMilestone) (List MilestoneDescriptor) (List RemoteMilestone)) :
    Env (List RemoteMilestone) (List MilestoneDescriptor) (List RemoteMilestone) where
  urlParse := fun s => .ok ⟨"", "", s⟩
  queryEncode := fun q => q
  urlString := fun u => u.Scheme ++ "://" ++ u.Rest
  doReq := fixedServer g h
  mapOrder := o
  lowerTable := fun c => c
  CreateMilestoneData := fun _ interval _ w =>
    if interval = "daily" ∨ interval = "weekly" ∨ interval = "monthly" then ((desired, none), w)
    else (([], some "InvalidInterval"), w)
  GetProjectID := fun _ _ _ _ w => (("42", none), w)
  gitlab := t
  github := t

/-- The flags of a run against `dev.example.com` with the given interval. -/
def demoArgs (interval : String) : Args where
  token := "tok"
  interval := interval
  baseURL := "dev.example.com"
  nameSpace := "someNamespace"
  project := "someProject"
  advance := 30

/-- The desired descriptor of the scenario of §8, titled `2024-01-10`. -/
def day10 : MilestoneDescriptor := ⟨"2024-01-10", "2024-01-10", "2024-01-10"⟩

/-- The remote milestone of the scenario of §8: `2024-01-10`, closed. -/
def closedDay10 : RemoteMilestone := ⟨7, "2024-01-10", .closed, "2024-01-10"⟩

/-! ## Predicates used in the statements -/

/-- The probes in the order they are tried, each with the status it answers. -/
def tried (o : MapOrder) (g h : Int) : List (String × Int) :=
  [(firstKey o, firstStatus o g h), (secondKey o, secondStatus o g h)]

/-- The events of the three tracker calls, given what each returned. -/
def gatewayEvents {D C : Type} (api b tok p : String) (d : D) (c : C)
    (e1 e2 e3 : Option Err) : List (Event D C) :=
  [.CreateAndDisplayNewMilestones api b tok p d e1] ++ logErr e1 ++
    [.GetClosedMilestones api b tok p d c e2] ++ logErr e2 ++
    [.ReactivateClosedMilestones api c b tok p e3] ++ logErr e3

/-- The five ways a run of `main` can go. -/
inductive RunShape {D C : Type} (t0 : List (Event D C)) (adv : Int) (iv tok : String) :
    List (Event D C) → Exit → Prop where
  | unknownAPI : RunShape t0 adv iv tok t0 .returned
  | noAPI (e : Err) : RunShape t0 adv iv tok (t0 ++ [.Fatal e]) .exit1
  | badInterval (api : String) (d : D) (e : Err) :
      RunShape t0 adv iv tok (t0 ++ [.CreateMilestoneData adv iv api d (some e), .Fatal e]) .exit1
  | noProject (api : String) (d : D) (b pr ns pid : String) (e : Err) :
      RunShape t0 adv iv tok
        (t0 ++ [.CreateMilestoneData adv iv api d none, .GetProjectID b tok pr ns pid (some e),
          .Fatal e]) .exit1
  | applied (api : String) (d : D) (pre : List (Event D C)) (b p : String) (c : C)
      (e1 e2 e3 : Option Err)
      (hpre : pre = [] ∨ ∃ pr ns, pre = [.GetProjectID b tok pr ns p none]) :
      RunShape t0 adv iv tok
        (t0 ++ .CreateMilestoneData adv iv api d none :: pre ++
          gatewayEvents api b tok p d c e1 e2 e3) .returned

/-- No event satisfying `q` comes after an event satisfying `p`. -/
def NoneAfter {D C : Type} (p q : Event D C → Bool) (tr : List (Event D C)) : Prop :=
  ∀ pre x post, tr = pre ++ x :: post → p x = true → ∀ y ∈ post, q y = false

/-- The order the specification gives (§5): the closed milestones are listed
before anything is created, and reactivation comes last. -/
def ListedBeforeCreated {D C : Type} (tr : List (Event D C)) : Prop :=
  NoneAfter Event.isCreation Event.isListing tr ∧
    NoneAfter Event.isReactivation Event.isCreation tr ∧
    NoneAfter Event.isReactivation Event.isListing tr

/-- Some title of the desired set `d` is also the title of a milestone of the
closed set `c`. -/
def SharedTitle (d : List MilestoneDescriptor) (c : List RemoteMilestone) : Prop :=
  ∃ x ∈ d, ∃ y ∈ c, x.title = y.title

/-- The set `main` hands to creation and the closed set it hands to
`ReactivateClosedMilestones` never share a title. -/
def HandsOverDisjoint
    (tr : List (Event (List MilestoneDescriptor) (List RemoteMilestone))) : Prop :=
  ∀ api b tok p d e, Event.CreateAndDisplayNewMilestones api b tok p d e ∈ tr →
    ∀ api2 c b2 tok2 p2 e2, Event.ReactivateClosedMilestones api2 c b2 tok2 p2 e2 ∈ tr →
      ¬ SharedTitle d c

/-- Exactly one of three propositions holds. -/
def ExactlyOne (p q r : Prop) : Prop :=
  (p ∨ q ∨ r) ∧ ¬ (p ∧ q) ∧ ¬ (p ∧ r) ∧ ¬ (q ∧ r)

/-! ## Lemmas on `checkAPI` -/

theorem checkAPI_eval (doReq : String → String → String → ProbeResult) (o : MapOrder)
    (baseURL token nameSpace project : String) (g h : Int)
    (hA : Answers doReq baseURL token nameSpace project g h) :
    checkAPI doReq o baseURL token nameSpace project =
      if firstStatus o g h = 200 then (firstKey o, none)
      else if firstStatus o g h = 403 then ("", some "Provided token is invalid. Access Denied.")
      else if secondStatus o g h = 200 then (secondKey o, none)
      else if secondStatus o g h = 403 then ("", some "Provided token is invalid. Access Denied.")
      else if secondStatus o g h = 404 then ("", some ("project " ++ project ++ " not found"))
      else ("", some "Error: could not access GitLab or GitHub APIs") := by
  obtain ⟨hg, hh⟩ := hA
  cases o <;>
    simp only [checkAPI, rangeMap, probeMap, List.reverse_cons, List.reverse_nil, List.nil_append,
      List.cons_append, checkAPILoop, hg, hh, firstStatus, secondStatus, firstKey, secondKey] <;>
    split_ifs <;> simp_all

/-- After the loop `resp` is not nil: the loop never falls through with the nil
pointer it started with once it has visited an entry. -/
theorem checkAPILoop_resp_ne_nil (doReq : String → String → String → ProbeResult)
    (token : String) :
    ∀ (m : List (String × String)) (resp : Option Int), m ≠ [] ∨ resp ≠ none →
      checkAPILoop doReq token m resp ≠ .fellThrough none
  | [], resp, h => by
    rcases h with h | h
    · exact absurd rfl h
    · simpa [checkAPILoop] using h
  | (k, v) :: rest, resp, _ => by
    unfold checkAPILoop
    split
    · simp
    · simp
    · split_ifs
      · simp
      · simp
      · exact checkAPILoop_resp_ne_nil doReq token rest _ (Or.inr (by simp))

theorem answers_fixedServer (g h : Int) (baseURL token nameSpace project : String) :
    Answers (fixedServer g h) baseURL token nameSpace project g h := by
  constructor <;> simp [fixedServer]

theorem tried_hit_iff (o : MapOrder) (g h : Int) :
    (∃ pre k post, tried o g h = pre ++ (k, 200) :: post ∧ ∀ p ∈ pre, p.2 ≠ 403) ↔
      firstStatus o g h = 200 ∨ (firstStatus o g h ≠ 403 ∧ secondStatus o g h = 200) := by
  constructor
  · rintro ⟨pre, k, post, hEq, hPre⟩
    match pre, hEq, hPre with
    | [], hEq, _ =>
      simp only [tried, List.nil_append, List.cons.injEq, Prod.mk.injEq] at hEq
      exact Or.inl hEq.1.2
    | [x], hEq, hPre =>
      simp only [tried, List.singleton_append, List.cons.injEq, Prod.mk.injEq] at hEq
      refine Or.inr ⟨?_, hEq.2.1.2⟩
      have := hPre x (by simp)
      rw [← hEq.1] at this
      exact this
    | x :: y :: rest, hEq, _ =>
      simp [tried] at hEq
  · rintro (h1 | ⟨h1, h2⟩)
    · exact ⟨[], firstKey o, [(secondKey o, secondStatus o g h)], by simp [tried, h1], by simp⟩
    · exact ⟨[(firstKey o, firstStatus o g h)], secondKey o, [], by simp [tried, h2], by simpa using h1⟩

/-- C6: with the GitHub probe tried first answering 404 and the GitLab probe
answering 401, neither 200 nor 403 is answered and the GitHub probe answers
404, yet `checkAPI` tests the response of the probe tried last (GitLab) and
returns the generic error instead of "project someProject not found". -/
theorem C6_checkAPI_github_404_then_gitlab_401 :
    Answers (fixedServer 401 404) "https://dev.example.com" "tok" "someNamespace" "someProject"
        401 404 ∧
      checkAPI (fixedServer 401 404) .githubFirst "https://dev.example.com" "tok"
          "someNamespace" "someProject" =
        ("", some "Error: could not access GitLab or GitHub APIs") ∧
      checkAPI (fixedServer 401 404) .githubFirst "https://dev.example.com" "tok"
          "someNamespace" "someProject" ≠
        ("", some ("project " ++ "someProject" ++ " not found")) := by
  refine ⟨answers_fixedServer _ _ _ _ _ _, by decide, by decide⟩

/-- C8: for every order of the probes and every pair of status codes,
`checkAPI` returns no error exactly when some probe answers 200 and no probe
tried before it answers 403; the flavour is then that of the first probe that
answered 200, one of "gitlab" and "github"; in every other case the flavour
is empty and the error is not nil. -/
theorem C8_checkAPI_success_iff (doReq : String → String → String → ProbeResult) (o : MapOrder)
    (baseURL token nameSpace project : String) (g h : Int)
    (hA : Answers doReq baseURL token nameSpace project g h) :
    ((checkAPI doReq o baseURL token nameSpace project).2 = none ↔
        ∃ pre k post, tried o g h = pre ++ (k, 200) :: post ∧ ∀ p ∈ pre, p.2 ≠ 403) ∧
      ((checkAPI doReq o baseURL token nameSpace project).2 = none →
        ((tried o g h).find? (fun p => p.2 = 200)).map Prod.fst =
            some (checkAPI doReq o baseURL token nameSpace project).1 ∧
          ((checkAPI doReq o baseURL token nameSpace project).1 = "gitlab" ∨
            (checkAPI doReq o baseURL token nameSpace project).1 = "github")) ∧
      ((checkAPI doReq o baseURL token nameSpace project).2 ≠ none →
        (checkAPI doReq o baseURL token nameSpace project).1 = "") := by
  rw [tried_hit_iff, checkAPI_eval doReq o baseURL token nameSpace project g h hA]
  have hk : firstKey o = "gitlab" ∨ firstKey o = "github" := by cases o <;> simp [firstKey]
  have hk2 : secondKey o = "gitlab" ∨ secondKey o = "github" := by cases o <;> simp [secondKey]
  simp only [tried]
  by_cases h1 : firstStatus o g h = 200
  · simp [h1, hk]
  · by_cases h2 : firstStatus o g h = 403
    · simp [h2]
    · by_cases h3 : secondStatus o g h = 200
      · simp [h1, h2, h3, hk2]
      · by_cases h4 : secondStatus o g h = 403
        · simp [h1, h2, h4]
        · by_cases h5 : secondStatus o g h = 404
          · simp [h1, h2, h5]
          · simp [h1, h2, h3, h4, h5]


/-! ## The shape of a run -/

theorem mem_logErr {D C : Type} (o : Option Err) (x : Event D C) :
    x ∈ (logErr o : List (Event D C)) ↔ ∃ e, o = some e ∧ x = .Println e := by
  cases o <;> simp [logErr]

theorem RunShape.applied_github {D C : Type} (t0 : List (Event D C)) (adv : Int)
    (iv tok api : String) (d : D) (b p : String) (c : C) (e1 e2 e3 : Option Err) :
    RunShape t0 adv iv tok
      (t0 ++ .CreateMilestoneData adv iv api d none ::
        .CreateAndDisplayNewMilestones api b tok p d e1 :: (logErr e1 ++
          .GetClosedMilestones api b tok p d c e2 :: (logErr e2 ++
            .ReactivateClosedMilestones api c b tok p e3 :: logErr e3))) .returned := by
  have h := @RunShape.applied D C t0 adv iv tok api d [] b p c e1 e2 e3 (Or.inl rfl)
  simp only [gatewayEvents, List.append_assoc, List.singleton_append, List.cons_append,
    List.nil_append] at h
  exact h

theorem RunShape.applied_gitlab {D C : Type} (t0 : List (Event D C)) (adv : Int)
    (iv tok api : String) (d : D) (b pr ns p : String) (c : C) (e1 e2 e3 : Option Err) :
    RunShape t0 adv iv tok
      (t0 ++ .CreateMilestoneData adv iv api d none :: .GetProjectID b tok pr ns p none ::
        .CreateAndDisplayNewMilestones api b tok p d e1 :: (logErr e1 ++
          .GetClosedMilestones api b tok p d c e2 :: (logErr e2 ++
            .ReactivateClosedMilestones api c b tok p e3 :: logErr e3))) .returned := by
  have h := @RunShape.applied D C t0 adv iv tok api d [.GetProjectID b tok pr ns p none] b p c
    e1 e2 e3 (Or.inr ⟨pr, ns, rfl⟩)
  simp only [gatewayEvents, List.append_assoc, List.singleton_append, List.cons_append,
    List.nil_append] at h
  exact h

theorem main_shape {σ D C : Type} (env : Env σ D C) (a : Args) (w : σ) :
    RunShape (logErr (validateBaseURLScheme env a.baseURL).2) a.advance
      (ToLower env.lowerTable a.interval) a.token (main env a w).trace (main env a w).exit := by
  unfold main
  simp only [applyMilestones, List.append_assoc, List.singleton_append, List.cons_append,
    List.nil_append]
  split
  · exact .noAPI _
  · split_ifs with hgl hgh
    · split
      · next e he => rw [he]; exact .badInterval _ _ _
      · next he =>
        rw [he]
        split
        · next e hp => rw [hp]; exact .noProject _ _ _ _ _ _ _
        · next hp =>
          rw [hp]
          exact RunShape.applied_gitlab _ _ _ _ _ _ _ _ _ _ _ _ _ _
    · split
      · next e he => rw [he]; exact .badInterval _ _ _
      · next he =>
        rw [he]
        exact RunShape.applied_github _ _ _ _ _ _ _ _ _ _ _ _
    · exact .unknownAPI

theorem unicodeToLower_of_asciiCasePair (table : Char → Char) (c d : Char)
    (h : AsciiCasePair c d) :
    unicodeToLower table c = d ∧ unicodeToLower table d = d := by
  obtain ⟨h1, h2, h3⟩ := h
  have hA : 'A'.toNat = 65 := by decide
  have hZ : 'Z'.toNat = 90 := by decide
  have ha : 'a'.toNat = 97 := by decide
  constructor
  · have hc : c.toNat ≤ 0x7F := by omega
    have hd : Char.ofNat (c.toNat + 32) = d := by rw [← h3, Char.ofNat_toNat]
    simp only [unicodeToLower, hA, hZ, ha, hc, h1, h2, and_self, if_true]
    exact hd
  · have hd : d.toNat ≤ 0x7F := by omega
    have hn : ¬ (65 ≤ d.toNat ∧ d.toNat ≤ 90) := by omega
    simp only [unicodeToLower, hA, hZ, hd, hn, if_true, if_false]

theorem unicodeToLower_eq_of_caseVariant (table : Char → Char) (c d : Char)
    (h : CaseVariant c d) : unicodeToLower table c = unicodeToLower table d := by
  rcases h with h | h | h
  · rw [h]
  · obtain ⟨h1, h2⟩ := unicodeToLower_of_asciiCasePair table c d h
    rw [h1, h2]
  · obtain ⟨h1, h2⟩ := unicodeToLower_of_asciiCasePair table d c h
    rw [h1, h2]

theorem map_eq_of_zip {α β : Type} (f : α → β) :
    ∀ (xs ys : List α), xs.length = ys.length → (∀ p ∈ xs.zip ys, f p.1 = f p.2) →
      xs.map f = ys.map f
  | [], [], _, _ => rfl
  | [], _ :: _, hl, _ => by simp at hl
  | _ :: _, [], hl, _ => by simp at hl
  | x :: xs, y :: ys, hl, hp => by
    have h1 : f x = f y := hp (x, y) (by simp)
    have h2 : xs.map f = ys.map f :=
      map_eq_of_zip f xs ys (by simpa using hl) (fun p hp2 => hp p (by simp [hp2]))
    simp [h1, h2]

theorem ToLower_eq_of_differOnlyInCase (table : Char → Char) (s t : String)
    (h : DifferOnlyInCase s t) : ToLower table s = ToLower table t := by
  unfold ToLower
  rw [map_eq_of_zip (unicodeToLower table) s.data t.data h.1
    (fun p hp => unicodeToLower_eq_of_caseVariant table p.1 p.2 (h.2 p hp))]

/-- A flavour returned by `checkAPI` without an error is a key of its map. -/
theorem checkAPI_flavour (doReq : String → String → String → ProbeResult) (o : MapOrder)
    (baseURL token nameSpace project : String)
    (h : (checkAPI doReq o baseURL token nameSpace project).2 = none) :
    (checkAPI doReq o baseURL token nameSpace project).1 = "gitlab" ∨
      (checkAPI doReq o baseURL token nameSpace project).1 = "github" := by
  revert h
  cases o <;>
    cases h1 : doReq "gitlab" (baseURL ++ "/api/v4/version") token <;>
    cases h2 : doReq "github" (baseURL ++ "/repos/" ++ nameSpace ++ "/" ++ project) token <;>
    simp only [checkAPI, rangeMap, probeMap, List.reverse_cons, List.reverse_nil,
      List.nil_append, List.cons_append, checkAPILoop, h1, h2] <;>
    (try split_ifs) <;> (try simp only [Option.some.injEq]) <;> (try split_ifs) <;> simp

/-- A run in which `checkAPI` found a flavour calls `CreateMilestoneData`, in
the world `main` started in, with the advance of the command line, the
lower-cased interval and that flavour. -/
theorem main_calls_CreateMilestoneData {σ D C : Type} (env : Env σ D C) (a : Args) (w : σ)
    (h : (checkAPI env.doReq env.mapOrder (validateBaseURLScheme env a.baseURL).1 a.token
      a.nameSpace a.project).2 = none) :
    Event.CreateMilestoneData a.advance (ToLower env.lowerTable a.interval)
        (checkAPI env.doReq env.mapOrder (validateBaseURLScheme env a.baseURL).1 a.token
          a.nameSpace a.project).1
        (env.CreateMilestoneData a.advance (ToLower env.lowerTable a.interval)
          (checkAPI env.doReq env.mapOrder (validateBaseURLScheme env a.baseURL).1 a.token
            a.nameSpace a.project).1 w).1.1
        (env.CreateMilestoneData a.advance (ToLower env.lowerTable a.interval)
          (checkAPI env.doReq env.mapOrder (validateBaseURLScheme env a.baseURL).1 a.token
            a.nameSpace a.project).1 w).1.2 ∈ (main env a w).trace := by
  have hk := checkAPI_flavour env.doReq env.mapOrder (validateBaseURLScheme env a.baseURL).1
    a.token a.nameSpace a.project h
  unfold main
  simp only [h]
  rcases hk with hk | hk
  · simp only [hk, if_true]
    split
    · simp
    · split <;> simp
  · have hne : ¬ ("github" = "gitlab") := by decide
    simp only [hk, hne, if_true, if_false]
    split <;> simp

/-! ## Claims about `main` -/

/-- C1: two interval strings that differ only in letter case are lower-cased by
`main` to the same value, and the two runs are identical (same events, same
exit, same final world).  Every call of `CreateMilestoneData` in the run
receives that lower-cased value, and a run in which `checkAPI` found a flavour
does make the call: with the advance of the command line, the lower-cased
interval and the flavour, in the world `main` started in. -/
theorem C1_interval_case_insensitive {σ D C : Type} (env : Env σ D C) (a : Args) (w : σ)
    (s t : String) (h : DifferOnlyInCase s t) :
    ToLower env.lowerTable s = ToLower env.lowerTable t ∧
      main env { a with interval := s } w = main env { a with interval := t } w ∧
      (∀ adv iv api d err,
        Event.CreateMilestoneData adv iv api d err ∈ (main env { a with interval := s } w).trace →
          iv = ToLower env.lowerTable s) ∧
      ((checkAPI env.doReq env.mapOrder (validateBaseURLScheme env a.baseURL).1 a.token
          a.nameSpace a.project).2 = none →
        ((checkAPI env.doReq env.mapOrder (validateBaseURLScheme env a.baseURL).1 a.token
            a.nameSpace a.project).1 = "gitlab" ∨
          (checkAPI env.doReq env.mapOrder (validateBaseURLScheme env a.baseURL).1 a.token
            a.nameSpace a.project).1 = "github") ∧
        Event.CreateMilestoneData a.advance (ToLower env.lowerTable s)
            (checkAPI env.doReq env.mapOrder (validateBaseURLScheme env a.baseURL).1 a.token
              a.nameSpace a.project).1
            (env.CreateMilestoneData a.advance (ToLower env.lowerTable s)
              (checkAPI env.doReq env.mapOrder (validateBaseURLScheme env a.baseURL).1 a.token
                a.nameSpace a.project).1 w).1.1
            (env.CreateMilestoneData a.advance (ToLower env.lowerTable s)
              (checkAPI env.doReq env.mapOrder (validateBaseURLScheme env a.baseURL).1 a.token
                a.nameSpace a.project).1 w).1.2 ∈
          (main env { a with interval := s } w).trace ∧
        Event.CreateMilestoneData a.advance (ToLower env.lowerTable s)
            (checkAPI env.doReq env.mapOrder (validateBaseURLScheme env a.baseURL).1 a.token
              a.nameSpace a.project).1
            (env.CreateMilestoneData a.advance (ToLower env.lowerTable s)
              (checkAPI env.doReq env.mapOrder (validateBaseURLScheme env a.baseURL).1 a.token
                a.nameSpace a.project).1 w).1.1
            (env.CreateMilestoneData a.advance (ToLower env.lowerTable s)
              (checkAPI env.doReq env.mapOrder (validateBaseURLScheme env a.baseURL).1 a.token
                a.nameSpace a.project).1 w).1.2 ∈
          (main env { a with interval := t } w).trace) := by
  have hl := ToLower_eq_of_differOnlyInCase env.lowerTable s t h
  have hrun : main env { a with interval := s } w = main env { a with interval := t } w := by
    simp only [main, hl]
  refine ⟨hl, hrun, ?_, ?_⟩
  · intro adv iv api d err hmem
    have hs := main_shape env { a with interval := s } w
    generalize (main env { a with interval := s } w).trace = tr at hs hmem
    generalize (main env { a with interval := s } w).exit = ex at hs
    cases hs with
    | applied api2 d2 pre b p c e1 e2 e3 hpre =>
      rcases hpre with rfl | ⟨pr, ns, rfl⟩ <;>
        simp [mem_logErr, gatewayEvents] at hmem <;> simp [hmem]
    | _ => simp [mem_logErr] at hmem <;> simp [hmem]
  · intro hc
    have hcall := main_calls_CreateMilestoneData env { a with interval := s } w hc
    refine ⟨checkAPI_flavour _ _ _ _ _ _ hc, hcall, ?_⟩
    rw [← hrun]
    exact hcall

/-- Witness of C1: `WEEKLY` and `weekly` on the GitLab flavour.  Both are
lower-cased to `weekly`, `checkAPI` finds the flavour `gitlab`, both runs call
`CreateMilestoneData` with the interval `weekly`, and the runs are identical. -/
theorem C1_interval_case_insensitive_witness :
    DifferOnlyInCase "WEEKLY" "weekly" ∧
      ToLower (demoEnv 200 404 .gitlabFirst [day10] specTracker).lowerTable "WEEKLY" =
        "weekly" ∧
      ToLower (demoEnv 200 404 .gitlabFirst [day10] specTracker).lowerTable "WEEKLY" =
        ToLower (demoEnv 200 404 .gitlabFirst [day10] specTracker).lowerTable "weekly" ∧
      main (demoEnv 200 404 .gitlabFirst [day10] specTracker)
          { demoArgs "daily" with interval := "WEEKLY" } [closedDay10] =
        main (demoEnv 200 404 .gitlabFirst [day10] specTracker)
          { demoArgs "daily" with interval := "weekly" } [closedDay10] ∧
      Event.CreateMilestoneData 30 "weekly" "gitlab" [day10] none ∈
        (main (demoEnv 200 404 .gitlabFirst [day10] specTracker)
          { demoArgs "daily" with interval := "WEEKLY" } [closedDay10]).trace ∧
      Event.CreateMilestoneData 30 "weekly" "gitlab" [day10] none ∈
        (main (demoEnv 200 404 .gitlabFirst [day10] specTracker)
          { demoArgs "daily" with interval := "weekly" } [closedDay10]).trace :=
  ⟨by decide, by decide,
    (C1_interval_case_insensitive (demoEnv 200 404 .gitlabFirst [day10] specTracker)
      (demoArgs "daily") [closedDay10] "WEEKLY" "weekly" (by decide)).1,
    (C1_interval_case_insensitive (demoEnv 200 404 .gitlabFirst [day10] specTracker)
      (demoArgs "daily") [closedDay10] "WEEKLY" "weekly" (by decide)).2.1,
    ((C1_interval_case_insensitive (demoEnv 200 404 .gitlabFirst [day10] specTracker)
      (demoArgs "daily") [closedDay10] "WEEKLY" "weekly" (by decide)).2.2.2 (by decide)).2.1,
    ((C1_interval_case_insensitive (demoEnv 200 404 .gitlabFirst [day10] specTracker)
      (demoArgs "daily") [closedDay10] "WEEKLY" "weekly" (by decide)).2.2.2 (by decide)).2.2⟩

/-- C2: on either flavour, when a call of `CreateMilestoneData` in the run
returned an error, `main` ends in `logger.Fatal` with that error (exit 1) and
the run contains no call that creates, lists or reactivates milestones. -/
theorem C2_invalid_interval_is_fatal {σ D C : Type} (env : Env σ D C) (a : Args) (w : σ)
    (adv : Int) (iv api : String) (d : D) (e : Err)
    (h : Event.CreateMilestoneData adv iv api d (some e) ∈ (main env a w).trace) :
    (main env a w).exit = .exit1 ∧
      (main env a w).trace.getLast? = some (.Fatal e) ∧
      ∀ ev ∈ (main env a w).trace, ev.isGatewayCall = false := by
  have hs := main_shape env a w
  generalize (main env a w).trace = tr at hs h
  generalize (main env a w).exit = ex at hs
  revert h
  cases hs with
  | applied api2 d2 pre b p c e1 e2 e3 hpre =>
    rcases hpre with rfl | ⟨pr, ns, rfl⟩ <;> simp [mem_logErr, gatewayEvents]
  | badInterval api2 d2 e2 =>
    intro h
    simp only [List.mem_append, mem_logErr, List.mem_cons, Event.CreateMilestoneData.injEq,
      List.mem_singleton, reduceCtorEq, or_false, List.not_mem_nil, and_false, exists_false,
      false_or, Option.some.injEq] at h
    obtain ⟨_, _, _, _, h5⟩ := h
    subst h5
    refine ⟨rfl, by simp, ?_⟩
    intro ev hev
    simp only [List.mem_append, mem_logErr, List.mem_cons, List.mem_singleton,
      List.not_mem_nil, or_false] at hev
    rcases hev with ⟨e3, _, rfl⟩ | rfl | rfl <;> rfl
  | _ => simp [mem_logErr]

/-- Witness of C2: the interval `yearly`, once on GitLab and once on GitHub. -/
theorem C2_invalid_interval_is_fatal_witness :
    (Event.CreateMilestoneData 30 "yearly" "gitlab" [] (some "InvalidInterval") ∈
        (main (demoEnv 200 404 .gitlabFirst [day10] specTracker) (demoArgs "YEARLY")
          [closedDay10]).trace ∧
      ((main (demoEnv 200 404 .gitlabFirst [day10] specTracker) (demoArgs "YEARLY")
            [closedDay10]).exit = .exit1 ∧
        (main (demoEnv 200 404 .gitlabFirst [day10] specTracker) (demoArgs "YEARLY")
            [closedDay10]).trace.getLast? = some (.Fatal "InvalidInterval") ∧
        ∀ ev ∈ (main (demoEnv 200 404 .gitlabFirst [day10] specTracker) (demoArgs "YEARLY")
            [closedDay10]).trace, ev.isGatewayCall = false)) ∧
    (Event.CreateMilestoneData 30 "yearly" "github" [] (some "InvalidInterval") ∈
        (main (demoEnv 404 200 .gitlabFirst [day10] specTracker) (demoArgs "YEARLY")
          [closedDay10]).trace ∧
      ((main (demoEnv 404 200 .gitlabFirst [day10] specTracker) (demoArgs "YEARLY")
            [closedDay10]).exit = .exit1 ∧
        (main (demoEnv 404 200 .gitlabFirst [day10] specTracker) (demoArgs "YEARLY")
            [closedDay10]).trace.getLast? = some (.Fatal "InvalidInterval") ∧
        ∀ ev ∈ (main (demoEnv 404 200 .gitlabFirst [day10] specTracker) (demoArgs "YEARLY")
            [closedDay10]).trace, ev.isGatewayCall = false)) :=
  ⟨⟨by decide,
      C2_invalid_interval_is_fatal (demoEnv 200 404 .gitlabFirst [day10] specTracker)
        (demoArgs "YEARLY") [closedDay10] 30 "yearly" "gitlab" [] "InvalidInterval" (by decide)⟩,
    ⟨by decide,
      C2_invalid_interval_is_fatal (demoEnv 404 200 .gitlabFirst [day10] specTracker)
        (demoArgs "YEARLY") [closedDay10] 30 "yearly" "github" [] "InvalidInterval" (by decide)⟩⟩

/-- C3 as stated fails: on GitLab, with a listing of the closed milestones
that returns an error, the run still calls `ReactivateClosedMilestones`. -/
theorem C3_reactivation_called_after_failed_listing :
    Event.GetClosedMilestones "gitlab" "https://dev.example.com/api/v4" "tok" "42" [day10] []
          (some "cannot list milestones") ∈
        (main (demoEnv 200 404 .gitlabFirst [day10] failingListTracker) (demoArgs "daily")
          [closedDay10]).trace ∧
      Event.ReactivateClosedMilestones "gitlab" [] "https://dev.example.com/api/v4" "tok" "42"
          none ∈
        (main (demoEnv 200 404 .gitlabFirst [day10] failingListTracker) (demoArgs "daily")
          [closedDay10]).trace ∧
      ¬ ∀ ev ∈ (main (demoEnv 200 404 .gitlabFirst [day10] failingListTracker)
          (demoArgs "daily") [closedDay10]).trace, ev.isReactivation = false := by
  decide

/-- C3, amended: on either flavour, when the call of `GetClosedMilestones`
returned an error, `main` logs the error and then calls
`ReactivateClosedMilestones` once, on the list that `GetClosedMilestones`
returned together with the error, logs the error of that call if there is
one, and returns. -/
theorem C3_failed_listing_is_logged {σ D C : Type} (env : Env σ D C) (a : Args) (w : σ)
    (api b tok p : String) (d : D) (c : C) (e : Err)
    (h : Event.GetClosedMilestones api b tok p d c (some e) ∈ (main env a w).trace) :
    (main env a w).exit = .returned ∧
      ∃ pre e3, (∀ ev ∈ pre, ev.isReactivation = false) ∧
        (main env a w).trace =
          pre ++ [.GetClosedMilestones api b tok p d c (some e), .Println e,
            .ReactivateClosedMilestones api c b tok p e3] ++ logErr e3 := by
  have hs := main_shape env a w
  generalize (main env a w).trace = tr at hs h
  generalize (main env a w).exit = ex at hs
  revert h
  cases hs with
  | applied api2 d2 pre b2 p2 c2 e1 e2 e3 hpre =>
    intro h
    refine ⟨rfl, ?_⟩
    have hg : Event.GetClosedMilestones api b tok p d c (some e) =
        Event.GetClosedMilestones api2 b2 a.token p2 d2 c2 e2 := by
      rcases hpre with rfl | ⟨pr, ns, rfl⟩ <;>
        simpa [mem_logErr, gatewayEvents] using h
    simp only [Event.GetClosedMilestones.injEq] at hg
    obtain ⟨rfl, rfl, rfl, rfl, rfl, rfl, rfl⟩ := hg
    refine ⟨logErr (validateBaseURLScheme env a.baseURL).2 ++
      Event.CreateMilestoneData a.advance (ToLower env.lowerTable a.interval) api d none ::
        pre ++ ([.CreateAndDisplayNewMilestones api b a.token p d e1] ++ logErr e1), e3, ?_, ?_⟩
    · intro ev hev
      simp only [List.mem_append, mem_logErr, List.mem_cons, List.mem_singleton,
        List.not_mem_nil, or_false] at hev
      rcases hev with (⟨x, _, rfl⟩ | rfl | hev) | rfl | ⟨x, _, rfl⟩
      · rfl
      · rfl
      · rcases hpre with rfl | ⟨pr, ns, rfl⟩
        · simp at hev
        · simp only [List.mem_singleton] at hev
          subst hev
          rfl
      · rfl
      · rfl
    · simp [gatewayEvents, logErr]
  | _ => simp [mem_logErr]

/-- Witness of C3, amended: the failing listing on GitLab. -/
theorem C3_failed_listing_is_logged_witness :
    Event.GetClosedMilestones "gitlab" "https://dev.example.com/api/v4" "tok" "42" [day10] []
          (some "cannot list milestones") ∈
        (main (demoEnv 200 404 .gitlabFirst [day10] failingListTracker) (demoArgs "daily")
          [closedDay10]).trace ∧
      ((main (demoEnv 200 404 .gitlabFirst [day10] failingListTracker) (demoArgs "daily")
          [closedDay10]).exit = .returned ∧
        ∃ pre e3, (∀ ev ∈ pre, ev.isReactivation = false) ∧
          (main (demoEnv 200 404 .gitlabFirst [day10] failingListTracker) (demoArgs "daily")
            [closedDay10]).trace =
            pre ++ [.GetClosedMilestones "gitlab" "https://dev.example.com/api/v4" "tok" "42"
                [day10] [] (some "cannot list milestones"),
              .Println "cannot list milestones",
              .ReactivateClosedMilestones "gitlab" [] "https://dev.example.com/api/v4" "tok"
                "42" e3] ++ logErr e3) :=
  ⟨by decide,
    C3_failed_listing_is_logged (demoEnv 200 404 .gitlabFirst [day10] failingListTracker)
      (demoArgs "daily") [closedDay10] "gitlab" "https://dev.example.com/api/v4" "tok" "42"
      [day10] [] "cannot list milestones" (by decide)⟩

/-- C4: on either flavour, when the call of `CreateAndDisplayNewMilestones`
returned an error, `main` logs it, then calls `GetClosedMilestones` with the
same arguments, then `ReactivateClosedMilestones` on the list it got, and
returns: the run is not aborted. -/
theorem C4_creation_failure_is_best_effort {σ D C : Type} (env : Env σ D C) (a : Args) (w : σ)
    (api b tok p : String) (d : D) (e : Err)
    (h : Event.CreateAndDisplayNewMilestones api b tok p d (some e) ∈ (main env a w).trace) :
    (main env a w).exit = .returned ∧
      ∃ pre c e2 e3,
        (main env a w).trace =
          pre ++ [.CreateAndDisplayNewMilestones api b tok p d (some e), .Println e,
            .GetClosedMilestones api b tok p d c e2] ++ logErr e2 ++
            [.ReactivateClosedMilestones api c b tok p e3] ++ logErr e3 := by
  have hs := main_shape env a w
  generalize (main env a w).trace = tr at hs h
  generalize (main env a w).exit = ex at hs
  revert h
  cases hs with
  | applied api2 d2 pre b2 p2 c2 e1 e2 e3 hpre =>
    intro h
    refine ⟨rfl, ?_⟩
    have hg : (Event.CreateAndDisplayNewMilestones api b tok p d (some e) : Event D C) =
        Event.CreateAndDisplayNewMilestones api2 b2 a.token p2 d2 e1 := by
      rcases hpre with rfl | ⟨pr, ns, rfl⟩ <;>
        simpa [mem_logErr, gatewayEvents] using h
    simp only [Event.CreateAndDisplayNewMilestones.injEq] at hg
    obtain ⟨rfl, rfl, rfl, rfl, rfl, rfl⟩ := hg
    refine ⟨logErr (validateBaseURLScheme env a.baseURL).2 ++
      Event.CreateMilestoneData a.advance (ToLower env.lowerTable a.interval) api d none ::
        pre, c2, e2, e3, ?_⟩
    simp [gatewayEvents, logErr]
  | _ => simp [mem_logErr]

/-- Witness of C4: a failing creation call, once on GitLab and once on GitHub. -/
theorem C4_creation_failure_is_best_effort_witness :
    (Event.CreateAndDisplayNewMilestones "gitlab" "https://dev.example.com/api/v4" "tok" "42"
          [day10] (some "cannot create milestone") ∈
        (main (demoEnv 200 404 .gitlabFirst [day10] failingCreateTracker) (demoArgs "daily")
          [closedDay10]).trace ∧
      ((main (demoEnv 200 404 .gitlabFirst [day10] failingCreateTracker) (demoArgs "daily")
          [closedDay10]).exit = .returned ∧
        ∃ pre c e2 e3,
          (main (demoEnv 200 404 .gitlabFirst [day10] failingCreateTracker) (demoArgs "daily")
            [closedDay10]).trace =
            pre ++ [.CreateAndDisplayNewMilestones "gitlab" "https://dev.example.com/api/v4"
                "tok" "42" [day10] (some "cannot create milestone"),
              .Println "cannot create milestone",
              .GetClosedMilestones "gitlab" "https://dev.example.com/api/v4" "tok" "42" [day10]
                c e2] ++ logErr e2 ++
              [.ReactivateClosedMilestones "gitlab" c "https://dev.example.com/api/v4" "tok"
                "42" e3] ++ logErr e3)) ∧
    (Event.CreateAndDisplayNewMilestones "github" "https://dev.example.com/repos/someNamespace/"
          "tok" "someProject" [day10] (some "cannot create milestone") ∈
        (main (demoEnv 404 200 .gitlabFirst [day10] failingCreateTracker) (demoArgs "daily")
          [closedDay10]).trace ∧
      ((main (demoEnv 404 200 .gitlabFirst [day10] failingCreateTracker) (demoArgs "daily")
          [closedDay10]).exit = .returned ∧
        ∃ pre c e2 e3,
          (main (demoEnv 404 200 .gitlabFirst [day10] failingCreateTracker) (demoArgs "daily")
            [closedDay10]).trace =
            pre ++ [.CreateAndDisplayNewMilestones "github"
                "https://dev.example.com/repos/someNamespace/" "tok" "someProject" [day10]
                (some "cannot create milestone"),
              .Println "cannot create milestone",
              .GetClosedMilestones "github" "https://dev.example.com/repos/someNamespace/" "tok"
                "someProject" [day10] c e2] ++ logErr e2 ++
              [.ReactivateClosedMilestones "github" c
                "https://dev.example.com/repos/someNamespace/" "tok" "someProject" e3] ++
              logErr e3)) :=
  ⟨⟨by decide,
      C4_creation_failure_is_best_effort
        (demoEnv 200 404 .gitlabFirst [day10] failingCreateTracker) (demoArgs "daily")
        [closedDay10] "gitlab" "https://dev.example.com/api/v4" "tok" "42" [day10]
        "cannot create milestone" (by decide)⟩,
    ⟨by decide,
      C4_creation_failure_is_best_effort
        (demoEnv 404 200 .gitlabFirst [day10] failingCreateTracker) (demoArgs "daily")
        [closedDay10] "github" "https://dev.example.com/repos/someNamespace/" "tok"
        "someProject" [day10] "cannot create milestone" (by decide)⟩⟩

/-- C5 as stated fails: on GitHub, with an empty remote and one desired
milestone, `main` first calls `CreateAndDisplayNewMilestones`, which creates
the milestone, and only then `GetClosedMilestones`, whose result it hands to
`ReactivateClosedMilestones`: the listing is taken after the creation. -/
theorem C5_listing_taken_after_creation :
    (main (demoEnv 404 200 .gitlabFirst [day10] specTracker) (demoArgs "daily") []).trace =
        [.CreateMilestoneData 30 "daily" "github" [day10] none,
          .CreateAndDisplayNewMilestones "github" "https://dev.example.com/repos/someNamespace/"
            "tok" "someProject" [day10] none,
          .GetClosedMilestones "github" "https://dev.example.com/repos/someNamespace/" "tok"
            "someProject" [day10] [] none,
          .ReactivateClosedMilestones "github" []
            "https://dev.example.com/repos/someNamespace/" "tok" "someProject" none] ∧
      (specTracker.CreateAndDisplayNewMilestones "https://dev.example.com/repos/someNamespace/"
          "tok" "someProject" [day10] []).2 = [⟨0, "2024-01-10", .opened, "2024-01-10"⟩] ∧
      ¬ ListedBeforeCreated
        (main (demoEnv 404 200 .gitlabFirst [day10] specTracker) (demoArgs "daily") []).trace := by
  have htr : (main (demoEnv 404 200 .gitlabFirst [day10] specTracker) (demoArgs "daily")
      []).trace =
        [.CreateMilestoneData 30 "daily" "github" [day10] none,
          .CreateAndDisplayNewMilestones "github" "https://dev.example.com/repos/someNamespace/"
            "tok" "someProject" [day10] none,
          .GetClosedMilestones "github" "https://dev.example.com/repos/someNamespace/" "tok"
            "someProject" [day10] [] none,
          .ReactivateClosedMilestones "github" []
            "https://dev.example.com/repos/someNamespace/" "tok" "someProject" none] := by
    decide
  refine ⟨htr, by decide, ?_⟩
  rw [htr]
  intro hc
  have := hc.1 [.CreateMilestoneData 30 "daily" "github" [day10] none] _ _ rfl rfl
    (.GetClosedMilestones "github" "https://dev.example.com/repos/someNamespace/" "tok"
      "someProject" [day10] [] none) (by simp)
  simp [Event.isListing] at this

/-- C5, amended: a run of `main` either makes no call that creates, lists or
reactivates milestones, or it makes exactly three, in this order:
`CreateAndDisplayNewMilestones`, then `GetClosedMilestones` with the same
milestone data, then `ReactivateClosedMilestones` on the list that listing
returned.  The listing from which the reactivations are derived is taken after
the creation call. -/
theorem C5_created_then_listed_then_reactivated {σ D C : Type} (env : Env σ D C) (a : Args)
    (w : σ) :
    (∀ ev ∈ (main env a w).trace, ev.isGatewayCall = false) ∨
      ∃ pre api b tok p d c e1 e2 e3, (∀ ev ∈ pre, ev.isGatewayCall = false) ∧
        (main env a w).trace = pre ++
          ([.CreateAndDisplayNewMilestones api b tok p d e1] ++ logErr e1 ++
            [.GetClosedMilestones api b tok p d c e2] ++ logErr e2 ++
            [.ReactivateClosedMilestones api c b tok p e3] ++ logErr e3) := by
  have hs := main_shape env a w
  generalize (main env a w).trace = tr at hs
  generalize (main env a w).exit = ex at hs
  have hlog : ∀ (o : Option Err), ∀ ev ∈ (logErr o : List (Event D C)),
      ev.isGatewayCall = false := by
    intro o ev hev
    obtain ⟨x, _, rfl⟩ := (mem_logErr o ev).1 hev
    rfl
  cases hs with
  | applied api2 d2 pre b2 p2 c2 e1 e2 e3 hpre =>
    refine Or.inr ⟨logErr (validateBaseURLScheme env a.baseURL).2 ++
      Event.CreateMilestoneData a.advance (ToLower env.lowerTable a.interval) api2 d2 none ::
        pre, api2, b2, a.token, p2, d2, c2, e1, e2, e3, ?_, ?_⟩
    · intro ev hev
      simp only [List.mem_append, List.mem_cons] at hev
      rcases hev with hev | rfl | hev
      · exact hlog _ ev hev
      · rfl
      · rcases hpre with rfl | ⟨pr, ns, rfl⟩
        · simp at hev
        · simp only [List.mem_singleton] at hev
          subst hev
          rfl
    · simp [gatewayEvents]
  | unknownAPI => exact Or.inl (hlog _)
  | noAPI e =>
    refine Or.inl fun ev hev => ?_
    simp only [List.mem_append, List.mem_singleton] at hev
    rcases hev with hev | rfl
    · exact hlog _ ev hev
    · rfl
  | badInterval api2 d2 e =>
    refine Or.inl fun ev hev => ?_
    simp only [List.mem_append, List.mem_cons, List.mem_singleton, List.not_mem_nil,
      or_false] at hev
    rcases hev with hev | rfl | rfl
    · exact hlog _ ev hev
    · rfl
    · rfl
  | noProject api2 d2 b2 pr ns pid e =>
    refine Or.inl fun ev hev => ?_
    simp only [List.mem_append, List.mem_cons, List.mem_singleton, List.not_mem_nil,
      or_false] at hev
    rcases hev with hev | rfl | rfl | rfl
    · exact hlog _ ev hev
    · rfl
    · rfl
    · rfl

/-! ## Reconciliation -/

theorem lookupRemote_title (remote : List RemoteMilestone) (title : String)
    (m : RemoteMilestone) (h : lookupRemote remote title = some m) : m.title = title := by
  have := List.find?_some h
  simpa using this

theorem mem_toCreate_titles (desired : List MilestoneDescriptor)
    (remote : List RemoteMilestone) (d : MilestoneDescriptor) (hd : d ∈ desired) :
    d.title ∈ (desired.filter (needsCreate remote)).map (fun x => x.title) ↔
      lookupRemote remote d.title = none := by
  simp only [List.mem_map, List.mem_filter, needsCreate, Option.isNone_iff_eq_none]
  constructor
  · rintro ⟨x, ⟨_, hx⟩, hxt⟩
    rw [← hxt]
    exact hx
  · intro h
    exact ⟨d, ⟨hd, h⟩, rfl⟩

theorem mem_satisfied_titles (desired : List MilestoneDescriptor)
    (remote : List RemoteMilestone) (d : MilestoneDescriptor) (hd : d ∈ desired) :
    d.title ∈ (satisfied desired remote).map (fun x => x.title) ↔
      ∃ m, lookupRemote remote d.title = some m ∧ m.state = .opened := by
  simp only [satisfied, List.mem_map, List.mem_filter, isSatisfied]
  constructor
  · rintro ⟨x, ⟨_, hx⟩, hxt⟩
    rw [← hxt]
    cases hl : lookupRemote remote x.title with
    | none => simp [hl] at hx
    | some m => exact ⟨m, rfl, by simpa [hl] using hx⟩
  · rintro ⟨m, hm, hs⟩
    exact ⟨d, ⟨hd, by simp [hm, hs]⟩, rfl⟩

theorem mem_toReactivate_titles (desired : List MilestoneDescriptor)
    (remote : List RemoteMilestone) (d : MilestoneDescriptor) (hd : d ∈ desired) :
    d.title ∈ (desired.filterMap (closedMatch remote)).map (fun x => x.title) ↔
      ∃ m, lookupRemote remote d.title = some m ∧ m.state = .closed := by
  simp only [List.mem_map, List.mem_filterMap, closedMatch]
  constructor
  · rintro ⟨m, ⟨x, _, hx⟩, hmt⟩
    cases hl : lookupRemote remote x.title with
    | none => simp [hl] at hx
    | some m2 =>
      simp only [hl] at hx
      split_ifs at hx with hc
      simp only [Option.some.injEq] at hx
      subst hx
      have h1 := lookupRemote_title remote x.title m2 hl
      rw [← hmt, h1]
      exact ⟨m2, hl, hc⟩
  · rintro ⟨m, hm, hs⟩
    exact ⟨m, ⟨d, hd, by simp [hm, hs]⟩, lookupRemote_title remote d.title m hm⟩

/-- C7 as stated fails: in the scenario of §8 (the desired title `2024-01-10`
is closed on the remote) `main` hands the whole desired set to
`CreateAndDisplayNewMilestones` and the closed milestone `2024-01-10` to
`ReactivateClosedMilestones`: the two sets share that title. -/
theorem C7_creation_set_shares_title_with_closed_set :
    Event.CreateAndDisplayNewMilestones "gitlab" "https://dev.example.com/api/v4" "tok" "42"
          [day10] none ∈
        (main (demoEnv 200 404 .gitlabFirst [day10] specTracker) (demoArgs "daily")
          [closedDay10]).trace ∧
      Event.ReactivateClosedMilestones "gitlab" [closedDay10] "https://dev.example.com/api/v4"
          "tok" "42" none ∈
        (main (demoEnv 200 404 .gitlabFirst [day10] specTracker) (demoArgs "daily")
          [closedDay10]).trace ∧
      SharedTitle [day10] [closedDay10] ∧
      ¬ HandsOverDisjoint
        (main (demoEnv 200 404 .gitlabFirst [day10] specTracker) (demoArgs "daily")
          [closedDay10]).trace := by
  have h1 : Event.CreateAndDisplayNewMilestones "gitlab" "https://dev.example.com/api/v4" "tok"
      "42" [day10] none ∈
        (main (demoEnv 200 404 .gitlabFirst [day10] specTracker) (demoArgs "daily")
          [closedDay10]).trace := by decide
  have h2 : Event.ReactivateClosedMilestones "gitlab" [closedDay10]
      "https://dev.example.com/api/v4" "tok" "42" none ∈
        (main (demoEnv 200 404 .gitlabFirst [day10] specTracker) (demoArgs "daily")
          [closedDay10]).trace := by decide
  have h3 : SharedTitle [day10] [closedDay10] :=
    ⟨day10, by simp, closedDay10, by simp, by decide⟩
  exact ⟨h1, h2, h3, fun hd => hd _ _ _ _ _ _ h1 _ _ _ _ _ _ h2 h3⟩

/-- C7, amended: whenever the reconciler of the specification succeeds, every
desired title lands in exactly one of satisfied, `toCreate` and
`toReactivate`, and `toCreate` and `toReactivate` share no title.  `main`
itself does not separate them: the set it hands to
`CreateAndDisplayNewMilestones` is the whole set `CreateMilestoneData`
returned, it hands the same set to `GetClosedMilestones`, and the closed set
it hands to `ReactivateClosedMilestones` is the list that listing returned. -/
theorem C7_reconcile_total_and_main_hands_whole_set (desired : List MilestoneDescriptor)
    (remote : List RemoteMilestone) (r : ReconciliationResult)
    (h : reconcile desired remote = .ok r) :
    (∀ d ∈ desired,
        ExactlyOne (d.title ∈ (satisfied desired remote).map (fun x => x.title))
          (d.title ∈ r.toCreate.map (fun x => x.title))
          (d.title ∈ r.toReactivate.map (fun x => x.title))) ∧
      (∀ x ∈ r.toCreate, ∀ y ∈ r.toReactivate, x.title ≠ y.title) ∧
      ∀ (σ : Type) (env : Env σ (List MilestoneDescriptor) (List RemoteMilestone)) (a : Args)
        (w : σ) (api b tok p : String) (d : List MilestoneDescriptor) (e : Option Err),
        Event.CreateAndDisplayNewMilestones api b tok p d e ∈ (main env a w).trace →
          Event.CreateMilestoneData a.advance (ToLower env.lowerTable a.interval) api d none ∈
              (main env a w).trace ∧
            ∃ c e2 e3,
              Event.GetClosedMilestones api b tok p d c e2 ∈ (main env a w).trace ∧
              Event.ReactivateClosedMilestones api c b tok p e3 ∈ (main env a w).trace ∧
              ∀ api2 c2 b2 tok2 p2 e4,
                Event.ReactivateClosedMilestones api2 c2 b2 tok2 p2 e4 ∈ (main env a w).trace →
                  c2 = c := by
  have hr : r = { toCreate := desired.filter (needsCreate remote),
                  toReactivate := desired.filterMap (closedMatch remote) } := by
    unfold reconcile at h
    split_ifs at h
    simp only [Except.ok.injEq] at h
    exact h.symm
  subst hr
  have total : ∀ d ∈ desired,
      ExactlyOne (d.title ∈ (satisfied desired remote).map (fun x => x.title))
        (d.title ∈ (desired.filter (needsCreate remote)).map (fun x => x.title))
        (d.title ∈ (desired.filterMap (closedMatch remote)).map (fun x => x.title)) := by
    intro d hd
    rw [mem_satisfied_titles desired remote d hd, mem_toCreate_titles desired remote d hd,
      mem_toReactivate_titles desired remote d hd]
    unfold ExactlyOne
    cases hl : lookupRemote remote d.title with
    | none => simp
    | some m => cases hm : m.state <;> simp [hm]
  refine ⟨total, ?_, ?_⟩
  · intro x hx y hy hxy
    have hxd : x ∈ desired := (List.mem_filter.1 hx).1
    have h1 : x.title ∈ (desired.filter (needsCreate remote)).map (fun x => x.title) :=
      List.mem_map.2 ⟨x, hx, rfl⟩
    have h2 : x.title ∈ (desired.filterMap (closedMatch remote)).map (fun x => x.title) :=
      List.mem_map.2 ⟨y, hy, hxy.symm⟩
    exact (total x hxd).2.2.2 ⟨h1, h2⟩
  · intro σ env a w api b tok p d e hmem
    have hs := main_shape env a w
    generalize (main env a w).trace = tr at hs hmem
    generalize (main env a w).exit = ex at hs
    revert hmem
    cases hs with
    | applied api2 d2 pre b2 p2 c2 e1 e2 e3 hpre =>
      intro hmem
      have hg : (Event.CreateAndDisplayNewMilestones api b tok p d e :
          Event (List MilestoneDescriptor) (List RemoteMilestone)) =
          Event.CreateAndDisplayNewMilestones api2 b2 a.token p2 d2 e1 := by
        rcases hpre with rfl | ⟨pr, ns, rfl⟩ <;>
          simpa [mem_logErr, gatewayEvents] using hmem
      simp only [Event.CreateAndDisplayNewMilestones.injEq] at hg
      obtain ⟨rfl, rfl, rfl, rfl, rfl, rfl⟩ := hg
      refine ⟨by simp, c2, e2, e3, by simp [gatewayEvents], by simp [gatewayEvents], ?_⟩
      intro api3 c3 b3 tok3 p3 e4 h3
      rcases hpre with rfl | ⟨pr, ns, rfl⟩ <;>
        simp [mem_logErr, gatewayEvents] at h3 <;> exact h3.2.1
    | _ => simp [mem_logErr]

/-- Witness of C7, amended: the scenario of §8, one desired title that is
closed on the remote. -/
theorem C7_reconcile_total_and_main_hands_whole_set_witness :
    reconcile [day10] [closedDay10] = .ok ⟨[], [closedDay10]⟩ ∧
      ((∀ d ∈ [day10],
          ExactlyOne (d.title ∈ (satisfied [day10] [closedDay10]).map (fun x => x.title))
            (d.title ∈ (ReconciliationResult.mk [] [closedDay10]).toCreate.map
              (fun x => x.title))
            (d.title ∈ (ReconciliationResult.mk [] [closedDay10]).toReactivate.map
              (fun x => x.title))) ∧
        (∀ x ∈ (ReconciliationResult.mk [] [closedDay10]).toCreate,
          ∀ y ∈ (ReconciliationResult.mk [] [closedDay10]).toReactivate, x.title ≠ y.title) ∧
        ∀ (σ : Type) (env : Env σ (List MilestoneDescriptor) (List RemoteMilestone)) (a : Args)
          (w : σ) (api b tok p : String) (d : List MilestoneDescriptor) (e : Option Err),
          Event.CreateAndDisplayNewMilestones api b tok p d e ∈ (main env a w).trace →
            Event.CreateMilestoneData a.advance (ToLower env.lowerTable a.interval) api d none ∈
                (main env a w).trace ∧
              ∃ c e2 e3,
                Event.GetClosedMilestones api b tok p d c e2 ∈ (main env a w).trace ∧
                Event.ReactivateClosedMilestones api c b tok p e3 ∈ (main env a w).trace ∧
                ∀ api2 c2 b2 tok2 p2 e4,
                  Event.ReactivateClosedMilestones api2 c2 b2 tok2 p2 e4 ∈
                      (main env a w).trace →
                    c2 = c) :=
  ⟨by rfl,
    C7_reconcile_total_and_main_hands_whole_set [day10] [closedDay10] ⟨[], [closedDay10]⟩
      (by rfl)⟩

/-- Witness of C8: GitLab tried first answers 404, GitHub answers 200. -/
theorem C8_checkAPI_success_iff_witness :
    Answers (fixedServer 404 200) "https://dev.example.com" "tok" "someNamespace" "someProject"
        404 200 ∧
      (((checkAPI (fixedServer 404 200) .gitlabFirst "https://dev.example.com" "tok"
            "someNamespace" "someProject").2 = none ↔
          ∃ pre k post, tried .gitlabFirst 404 200 = pre ++ (k, 200) :: post ∧
            ∀ p ∈ pre, p.2 ≠ 403) ∧
        ((checkAPI (fixedServer 404 200) .gitlabFirst "https://dev.example.com" "tok"
            "someNamespace" "someProject").2 = none →
          ((tried .gitlabFirst 404 200).find? (fun p => p.2 = 200)).map Prod.fst =
              some (checkAPI (fixedServer 404 200) .gitlabFirst "https://dev.example.com" "tok"
                "someNamespace" "someProject").1 ∧
            ((checkAPI (fixedServer 404 200) .gitlabFirst "https://dev.example.com" "tok"
                "someNamespace" "someProject").1 = "gitlab" ∨
              (checkAPI (fixedServer 404 200) .gitlabFirst "https://dev.example.com" "tok"
                "someNamespace" "someProject").1 = "github")) ∧
        ((checkAPI (fixedServer 404 200) .gitlabFirst "https://dev.example.com" "tok"
            "someNamespace" "someProject").2 ≠ none →
          (checkAPI (fixedServer 404 200) .gitlabFirst "https://dev.example.com" "tok"
            "someNamespace" "someProject").1 = "")) :=
  ⟨by decide,
    C8_checkAPI_success_iff (fixedServer 404 200) .gitlabFirst "https://dev.example.com" "tok"
      "someNamespace" "someProject" 404 200 (by decide)⟩

/-- C9 as stated fails: when both probes answer 200, trying GitLab first
returns the flavour `gitlab` and trying GitHub first returns `github`. -/
theorem C9_checkAPI_depends_on_order :
    Answers (fixedServer 200 200) "https://dev.example.com" "tok" "someNamespace" "someProject"
        200 200 ∧
      checkAPI (fixedServer 200 200) .gitlabFirst "https://dev.example.com" "tok"
          "someNamespace" "someProject" = ("gitlab", none) ∧
      checkAPI (fixedServer 200 200) .githubFirst "https://dev.example.com" "tok"
          "someNamespace" "someProject" = ("github", none) ∧
      checkAPI (fixedServer 200 200) .gitlabFirst "https://dev.example.com" "tok"
          "someNamespace" "someProject" ≠
        checkAPI (fixedServer 200 200) .githubFirst "https://dev.example.com" "tok"
          "someNamespace" "someProject" := by
  decide

/-- C9, amended: the two orders return the same flavour and the same error
for every pair of status codes in which the two probes do not both answer 200
or 403 with at least one 200, and in which, when neither answers 200 or 403,
the two agree on answering 404 or not. -/
theorem C9_checkAPI_order_independent_when_unambiguous
    (doReq : String → String → String → ProbeResult)
    (baseURL token nameSpace project : String) (g h : Int)
    (hA : Answers doReq baseURL token nameSpace project g h)
    (hOne : ¬ ((g = 200 ∨ g = 403) ∧ (h = 200 ∨ h = 403) ∧ (g = 200 ∨ h = 200)))
    (hLast : g ≠ 200 → g ≠ 403 → h ≠ 200 → h ≠ 403 → (g = 404 ↔ h = 404)) :
    checkAPI doReq .gitlabFirst baseURL token nameSpace project =
      checkAPI doReq .githubFirst baseURL token nameSpace project := by
  rw [checkAPI_eval doReq .gitlabFirst baseURL token nameSpace project g h hA,
    checkAPI_eval doReq .githubFirst baseURL token nameSpace project g h hA]
  simp only [firstStatus, secondStatus, firstKey, secondKey]
  by_cases g2 : g = 200
  · by_cases h2 : h = 200
    · exact absurd ⟨Or.inl g2, Or.inl h2, Or.inl g2⟩ hOne
    · by_cases h3 : h = 403
      · exact absurd ⟨Or.inl g2, Or.inr h3, Or.inl g2⟩ hOne
      · simp [g2, h2, h3]
  · by_cases g3 : g = 403
    · by_cases h2 : h = 200
      · exact absurd ⟨Or.inr g3, Or.inl h2, Or.inr h2⟩ hOne
      · simp [g3, h2]
    · by_cases h2 : h = 200
      · simp [g2, g3, h2]
      · by_cases h3 : h = 403
        · simp [g2, g3, h3]
        · have h4 := hLast g2 g3 h2 h3
          by_cases g4 : g = 404
          · simp [g2, g3, h2, h3, g4, h4.1 g4]
          · have h5 : h ≠ 404 := fun hh => g4 (h4.2 hh)
            simp [g2, g3, h2, h3, g4, h5]

/-- Witness of C9, amended: both probes answer 404 (a GitHub host without the
project), and both orders report the missing project. -/
theorem C9_checkAPI_order_independent_when_unambiguous_witness :
    Answers (fixedServer 404 404) "https://dev.example.com" "tok" "someNamespace" "someProject"
        404 404 ∧
      ¬ (((404 : Int) = 200 ∨ (404 : Int) = 403) ∧ ((404 : Int) = 200 ∨ (404 : Int) = 403) ∧
        ((404 : Int) = 200 ∨ (404 : Int) = 200)) ∧
      ((404 : Int) ≠ 200 → (404 : Int) ≠ 403 → (404 : Int) ≠ 200 → (404 : Int) ≠ 403 →
        ((404 : Int) = 404 ↔ (404 : Int) = 404)) ∧
      checkAPI (fixedServer 404 404) .gitlabFirst "https://dev.example.com" "tok"
          "someNamespace" "someProject" =
        checkAPI (fixedServer 404 404) .githubFirst "https://dev.example.com" "tok"
          "someNamespace" "someProject" :=
  ⟨by decide, by decide, by decide,
    C9_checkAPI_order_independent_when_unambiguous (fixedServer 404 404)
      "https://dev.example.com" "tok" "someNamespace" "someProject" 404 404 (by decide)
      (by decide) (by decide)⟩

end Gomiler
